import Mathlib

/-!
Shallow embedding of the analytics engine of the repository
(`src/services/analytics_service.py`) and proofs about it.

Modelling conventions:
* A stored timestamp is an instant, modelled as an integer number of seconds
  since the Unix epoch.  The code normalises timezone-naive stored timestamps
  by interpreting them as UTC (`m.timestamp.replace(tzinfo=ZoneInfo("UTC"))`),
  so a naive stored value *is* the UTC instant with the same reading; both
  naive and aware timestamps therefore denote the same `Int` here.
* Calendar dates are modelled as integer day numbers since 1970-01-01
  (a Thursday); Python's `date.weekday()` (Monday = 0) becomes
  `(d + 3) % 7`.
* The configured zone `America/Argentina/Buenos_Aires` is a fixed UTC-3
  offset (no DST), so local wall-clock time of instant `t` is `t - 10800`
  seconds and local midnight of day `d` is the instant `d * 86400 + 10800`.
* Metric values that Python holds as `float` (averages, percentages) are
  modelled as exact rationals `ℚ`; `None` becomes `Option.none`.  The final
  `round(x, 2)` presentation step is not modelled: every concrete value used
  in a theorem below is already exact to two decimals, so rounding fixes it.
* Database queries become pure functions over an in-memory `DB` record;
  SQL `JOIN`/`DISTINCT`/`ORDER BY ... ASC LIMIT 1` become the corresponding
  list operations.
-/

namespace Analytics

/-- Message direction (`Message.direction ∈ {"incoming", "outgoing"}`). -/
inductive Direction where
  | incoming
  | outgoing
deriving DecidableEq, Repr

/-- A row of the `channels` table (the fields the analytics code reads). -/
structure Channel where
  id : Nat
  name : String
deriving DecidableEq, Repr

/-- A row of the `conversations` table (the fields the analytics code reads). -/
structure Conversation where
  id : Nat
  channel_id : Nat
deriving DecidableEq, Repr

/-- A row of the `messages` table (the fields the analytics code reads);
`timestamp` is the instant in seconds since the epoch (naive values read as
UTC). -/
structure Message where
  id : Nat
  conversation_id : Nat
  direction : Direction
  timestamp : Int
deriving DecidableEq, Repr

/-- The read-only database the service queries. -/
structure DB where
  channels : List Channel
  conversations : List Conversation
  messages : List Message
deriving Repr

/-! ### Window calculator (`AnalyticsService.dashboard`, lines 30-36) -/

/-- Python `date.weekday()`: Monday = 0 … Sunday = 6, for a day number since
1970-01-01 (a Thursday). -/
def weekday (d : Int) : Int := (d + 3) % 7

/-- `this_week_start = today - timedelta(days=today.weekday())`. -/
def this_week_start (today : Int) : Int := today - weekday today

/-- `this_week_end = this_week_start + timedelta(days=6)`. -/
def this_week_end (today : Int) : Int := this_week_start today + 6

/-- `last_week_start = this_week_start - timedelta(weeks=1)`. -/
def last_week_start (today : Int) : Int := this_week_start today - 7

/-- `last_week_end = this_week_start - timedelta(days=1)`. -/
def last_week_end (today : Int) : Int := this_week_start today - 1

/-! ### Comparator (`calcular_cambio_porcentual`, lines 202-210) -/

/-- `calcular_cambio_porcentual(valor_anterior, valor_actual)`:
`None` if either side is `None`; `0.0` if both are `0`; `None` on division
by zero; otherwise `((actual - anterior) / anterior) * 100`. -/
def calcular_cambio_porcentual (valor_anterior valor_actual : Option ℚ) : Option ℚ :=
  match valor_anterior, valor_actual with
  | none, _ => none
  | _, none => none
  | some anterior, some actual =>
      if anterior = 0 then
        if actual = 0 then some 0 else none
      else
        some ((actual - anterior) / anterior * 100)

/-! ### FRT calculator (`_calculate_frt_all`, lines 262-302) -/

/-- The messages of conversation `cid` with the given direction
(`Message.conversation_id == conv.id AND Message.direction == d`). -/
def msgsOf (db : DB) (cid : Nat) (d : Direction) : List Message :=
  db.messages.filter (fun m => m.conversation_id == cid && m.direction == d)

/-- `ORDER BY timestamp ASC LIMIT 1` over a list of timestamps: the minimum,
or `none` when there is no row. -/
def minTs : List Int → Option Int
  | [] => none
  | t :: ts =>
      match minTs ts with
      | none => some t
      | some u => some (min t u)

/-- Timestamp of the first (minimum-timestamp) incoming message of `cid`. -/
def firstIncomingTs (db : DB) (cid : Nat) : Option Int :=
  minTs ((msgsOf db cid Direction.incoming).map Message.timestamp)

/-- Timestamp of the first (minimum-timestamp) outgoing message of `cid`. -/
def firstOutgoingTs (db : DB) (cid : Nat) : Option Int :=
  minTs ((msgsOf db cid Direction.outgoing).map Message.timestamp)

/-- Per-conversation FRT in minutes: `int(delta.total_seconds() // 60)` when
both a first incoming and a first outgoing message exist, else `None`.
Python `//` on the seconds difference is floor division, i.e. `Int.fdiv`. -/
def frt (db : DB) (cid : Nat) : Option Int :=
  match firstIncomingTs db cid, firstOutgoingTs db cid with
  | some received, some response => some (Int.fdiv (response - received) 60)
  | _, _ => none

/-- `_calculate_frt_all`: the dict `conv.id → FRT` over all conversations. -/
def frt_data_all (db : DB) : List (Nat × Option Int) :=
  db.conversations.map (fun conv => (conv.id, frt db conv.id))

/-- `frts_min = [frt for frt in frt_data.values() if frt is not None]`. -/
def frts_min (db : DB) : List Int :=
  (frt_data_all db).filterMap Prod.snd

/-- The SLA test applied to one conversation's FRT entry, as written in the
numerators (lines 63 and 173-176): the FRT exists and is `≤ 1440`. -/
def slaOk (db : DB) (cid : Nat) : Bool :=
  match frt db cid with
  | some v => decide (v ≤ 1440)
  | none => false

/-! ### General metrics (`_build_general_metrics`, lines 51-95) -/

/-- `ok24 = sum(1 for frt in frts_min if frt <= 1440)`. -/
def ok24 (db : DB) : Nat :=
  (frts_min db).countP (fun v => decide (v ≤ 1440))

/-- `pct24h = None if total_conv == 0 else 100.0 * ok24 / total_conv`, where
`total_conv` is the count of all conversations. -/
def pct24h (db : DB) : Option ℚ :=
  if db.conversations.length = 0 then none
  else some (100 * (ok24 db : ℚ) / (db.conversations.length : ℚ))

/-- `frt_avg = None if not frts_min else sum(frts_min) / len(frts_min)`. -/
def frt_avg (db : DB) : Option ℚ :=
  if frts_min db = [] then none
  else some ((((frts_min db).map (fun v => (v : ℚ))).sum) / ((frts_min db).length : ℚ))

/-! ### Weekly window and weekly metrics (`_build_weekly_metrics`, lines 98-197) -/

/-- Fixed UTC-3 offset of `America/Argentina/Buenos_Aires`, in seconds:
local wall-clock time of instant `t` reads `t - zoneOffset`. -/
def zoneOffset : Int := 10800

/-- `datetime.combine(d, time.min, tzinfo=zone).astimezone(utc)`: the UTC
instant at which local day `d` starts. -/
def localMidnightUtc (d : Int) : Int := d * 86400 + zoneOffset

/-- `from_dt` of the week `[week_start, week_end]` (line 107). -/
def from_dt (week_start : Int) : Int := localMidnightUtc week_start

/-- `to_dt` of the week: local midnight of `week_end + 1 day` (line 108). -/
def to_dt (week_end : Int) : Int := localMidnightUtc (week_end + 1)

/-- `Message.timestamp >= from AND Message.timestamp < to`: the half-open
`[from, to)` filter.  The aware bounds and their `replace(tzinfo=None)`
naive-UTC copies denote the same instants in this embedding. -/
def inWindow (fromT toT : Int) (m : Message) : Bool :=
  decide (fromT ≤ m.timestamp) && decide (m.timestamp < toT)

/-- `msgs_in_week` (lines 112-117). -/
def msgs_in_week (db : DB) (fromT toT : Int) : List Message :=
  db.messages.filter (inWindow fromT toT)

/-- `conversations = len(set(msg.conversation_id for msg in msgs_in_week))`
(line 120). -/
def weeklyConversations (db : DB) (fromT toT : Int) : Nat :=
  (((msgs_in_week db fromT toT).map Message.conversation_id).dedup).length

/-- Count of direction-`d` messages of a scope (`total_in`/`total_out` on
lines 67-68 and 122-123). -/
def totalDir (ms : List Message) (d : Direction) : Nat :=
  ms.countP (fun m => m.direction == d)

/-- The multiplicity with which `JOIN conversations ON conversation_id`
resolves message `m` into channel `chid`: the number of conversation rows
with `m`'s conversation id that belong to `chid` (one, for well-formed
data). -/
def joinMult (db : DB) (chid : Nat) (m : Message) : Nat :=
  (db.conversations.filter
    (fun conv => conv.id == m.conversation_id && conv.channel_id == chid)).length

/-- `Message JOIN Conversation` count for one channel and one direction over
the scope's message list `ms` (lines 74-85 and 130-138). -/
def joinCount (db : DB) (ms : List Message) (chid : Nat) (d : Direction) : Nat :=
  ((ms.filter (fun m => m.direction == d)).map (joinMult db chid)).sum

/-- `por_canal`: one `(name, {in, out})` entry per channel row. -/
def por_canal (db : DB) (ms : List Message) : List (String × Nat × Nat) :=
  db.channels.map (fun ch =>
    (ch.name, joinCount db ms ch.id Direction.incoming,
      joinCount db ms ch.id Direction.outgoing))

/-- `por_canal` of the general metrics: all messages (lines 71-86). -/
def por_canal_total (db : DB) : List (String × Nat × Nat) :=
  por_canal db db.messages

/-- Weekly `por_canal`: messages restricted to the week (lines 126-139). -/
def por_canal_week (db : DB) (fromT toT : Int) : List (String × Nat × Nat) :=
  por_canal db (msgs_in_week db fromT toT)

/-- Local calendar date of instant `t`: naive timestamps are read as UTC
(`ts_utc = m.timestamp.replace(tzinfo=ZoneInfo("UTC"))`), then
`ts_utc.astimezone(zone).date()` shifts by the UTC-3 offset (lines 148-156). -/
def localDate (t : Int) : Int := Int.fdiv (t - zoneOffset) 86400

/-- The UTC calendar date of instant `t`; not used by the code, stated only
to contrast with `localDate`. -/
def utcDate (t : Int) : Int := Int.fdiv t 86400

/-- The `while d <= week_end` initialisation loop (lines 143-146): the days
from `week_start` to `week_end`. -/
def daysOf (week_start week_end : Int) : List Int :=
  (List.range (week_end + 1 - week_start).toNat).map (fun (i : Nat) => week_start + (i : Int))

/-- One per-message `por_dia` update: find the entry keyed by the message's
local date (`if ld in por_dia`) and increment its `out` or `in` counter
(lines 148-161). -/
def bumpDia (acc : List (Int × Nat × Nat)) (m : Message) : List (Int × Nat × Nat) :=
  acc.map (fun e =>
    if e.1 == localDate m.timestamp then
      match m.direction with
      | Direction.outgoing => (e.1, e.2.1, e.2.2 + 1)
      | Direction.incoming => (e.1, e.2.1 + 1, e.2.2)
    else e)

/-- `mensajes_por_dia`: the zero-initialised day map folded over the week's
messages (lines 141-161). -/
def mensajes_por_dia (db : DB) (week_start week_end : Int) : List (Int × Nat × Nat) :=
  (msgs_in_week db (from_dt week_start) (to_dt week_end)).foldl bumpDia
    ((daysOf week_start week_end).map (fun d => (d, 0, 0)))

/-- Number of direction-`dir` messages of `ms` whose local date is `d`. -/
def cntDia (ms : List Message) (d : Int) (dir : Direction) : Nat :=
  ms.countP (fun m => localDate m.timestamp == d && m.direction == dir)

/-- `_calculate_frt_weekly`, first query (lines 311-319): distinct
conversation ids having an outgoing message in `[from, to)`. -/
def outgoing_in_week (db : DB) (fromT toT : Int) : List Nat :=
  ((db.messages.filter
      (fun m => m.direction == Direction.outgoing && inWindow fromT toT m)).map
    Message.conversation_id).dedup

/-- `_calculate_frt_weekly` (lines 304-353): for each such conversation id,
the FRT from the overall first incoming and first outgoing message, kept
when both exist. -/
def frt_weekly (db : DB) (fromT toT : Int) : List Int :=
  (outgoing_in_week db fromT toT).filterMap (fun cid =>
    match firstIncomingTs db cid, firstOutgoingTs db cid with
    | some received, some response => some (Int.fdiv (response - received) 60)
    | _, _ => none)

/-- Weekly `frt_avg = None if not frt_weekly else sum / len` (line 165). -/
def frt_avg_weekly (db : DB) (fromT toT : Int) : Option ℚ :=
  if frt_weekly db fromT toT = [] then none
  else some ((((frt_weekly db fromT toT).map (fun v => (v : ℚ))).sum) /
    ((frt_weekly db fromT toT).length : ℚ))

/-- `_get_conversations_with_first_in_in_week` (lines 355-383): ids of
conversations whose first incoming message timestamp lies in `[from, to)`. -/
def conv_in_week (db : DB) (fromT toT : Int) : List Nat :=
  db.conversations.filterMap (fun conv =>
    match firstIncomingTs db conv.id with
    | some ts => if decide (fromT ≤ ts) && decide (ts < toT) then some conv.id else none
    | none => none)

/-- `ok24week` (lines 172-176): members of `conv_in_week` whose all-time FRT
exists and is `≤ 1440` (the dict test `conv_id in frt_data_all and ... is
not None and ... <= 1440` is exactly `slaOk`, since the dict maps every
conversation id to `frt db` of that id). -/
def ok24week (db : DB) (fromT toT : Int) : Nat :=
  (conv_in_week db fromT toT).countP (fun cid => slaOk db cid)

/-! ### Weekly comparison (`_build_weekly_comparison`, lines 200-259)

The snapshot dict fields the comparison reads, and the comparison record.
The integer counts are wrapped in `some` because Python passes them as plain
ints to `calcular_cambio_porcentual`, whose `is None` test never fires on
them.  `round(x, 2)` is again omitted; concrete values in the theorems are
exact to two decimals. -/

/-- The fields of a weekly snapshot that `_build_weekly_comparison` reads. -/
structure WeeklySnapshot where
  frt_avg_min : Option ℚ
  pct_respondido_24h : Option ℚ
  conversations : Nat
  mensajes_totales_in : Nat
  mensajes_totales_out : Nat
deriving Repr

/-- One `{semana_anterior, semana_actual, cambio_porcentual}` entry. -/
structure ComparisonEntry where
  semana_anterior : Option ℚ
  semana_actual : Option ℚ
  cambio_porcentual : Option ℚ
deriving Repr

/-- The five entries of `comparativa_semanal`. -/
structure WeeklyComparison where
  mensajes_totales_in : ComparisonEntry
  mensajes_respondidos : ComparisonEntry
  tiempo_promedio_respuesta_min : ComparisonEntry
  tasa_respuesta_24h : ComparisonEntry
  conversaciones : ComparisonEntry
deriving Repr

/-- `_build_weekly_comparison(semana_anterior, semana_actual)`. -/
def build_weekly_comparison (anterior actual : WeeklySnapshot) : WeeklyComparison :=
  { mensajes_totales_in :=
      { semana_anterior := some (anterior.mensajes_totales_in : ℚ)
        semana_actual := some (actual.mensajes_totales_in : ℚ)
        cambio_porcentual := calcular_cambio_porcentual
          (some (anterior.mensajes_totales_in : ℚ)) (some (actual.mensajes_totales_in : ℚ)) }
    mensajes_respondidos :=
      { semana_anterior := some (anterior.mensajes_totales_out : ℚ)
        semana_actual := some (actual.mensajes_totales_out : ℚ)
        cambio_porcentual := calcular_cambio_porcentual
          (some (anterior.mensajes_totales_out : ℚ)) (some (actual.mensajes_totales_out : ℚ)) }
    tiempo_promedio_respuesta_min :=
      { semana_anterior := anterior.frt_avg_min
        semana_actual := actual.frt_avg_min
        cambio_porcentual := calcular_cambio_porcentual anterior.frt_avg_min actual.frt_avg_min }
    tasa_respuesta_24h :=
      { semana_anterior := anterior.pct_respondido_24h
        semana_actual := actual.pct_respondido_24h
        cambio_porcentual := calcular_cambio_porcentual
          anterior.pct_respondido_24h actual.pct_respondido_24h }
    conversaciones :=
      { semana_anterior := some (anterior.conversations : ℚ)
        semana_actual := some (actual.conversations : ℚ)
        cambio_porcentual := calcular_cambio_porcentual
          (some (anterior.conversations : ℚ)) (some (actual.conversations : ℚ)) } }

/-! ### Concrete example databases used in closed statements -/

/-- One conversation answered after exactly 1440 minutes (86400 s). -/
def dbExactly1440 : DB :=
  { channels := []
    conversations := [{ id := 1, channel_id := 1 }]
    messages := [{ id := 1, conversation_id := 1, direction := Direction.incoming, timestamp := 0 },
                 { id := 2, conversation_id := 1, direction := Direction.outgoing, timestamp := 86400 }] }

/-- One conversation answered after exactly 1441 minutes (86460 s). -/
def dbExactly1441 : DB :=
  { channels := []
    conversations := [{ id := 1, channel_id := 1 }]
    messages := [{ id := 1, conversation_id := 1, direction := Direction.incoming, timestamp := 0 },
                 { id := 2, conversation_id := 1, direction := Direction.outgoing, timestamp := 86460 }] }

/-- One conversation with an incoming message at 0 s answered at 3600 s. -/
def dbOneAnswered : DB :=
  { channels := []
    conversations := [{ id := 1, channel_id := 1 }]
    messages := [{ id := 1, conversation_id := 1, direction := Direction.incoming, timestamp := 0 },
                 { id := 2, conversation_id := 1, direction := Direction.outgoing, timestamp := 3600 }] }

/-- One conversation whose first outgoing message (at 0 s) precedes its first
incoming message (at 3600 s): a backdated reply. -/
def dbBackdatedOut : DB :=
  { channels := []
    conversations := [{ id := 1, channel_id := 1 }]
    messages := [{ id := 1, conversation_id := 1, direction := Direction.incoming, timestamp := 3600 },
                 { id := 2, conversation_id := 1, direction := Direction.outgoing, timestamp := 0 }] }

/-- One conversation answered in week 1 (first outgoing at 3600 s) that
sends a further outgoing message during week 2 (at 700000 s). -/
def dbLateOutgoing : DB :=
  { channels := []
    conversations := [{ id := 1, channel_id := 1 }]
    messages := [{ id := 1, conversation_id := 1, direction := Direction.incoming, timestamp := 0 },
                 { id := 2, conversation_id := 1, direction := Direction.outgoing, timestamp := 3600 },
                 { id := 3, conversation_id := 1, direction := Direction.outgoing, timestamp := 700000 }] }

/-- Three conversations around the window `[0, 100)`: conversation 1 was
asked before the window and answered inside it; conversation 2 was asked
inside it and never answered; conversation 3 was asked inside it and
answered after it. -/
def dbThreePopulations : DB :=
  { channels := []
    conversations := [{ id := 1, channel_id := 1 },
                      { id := 2, channel_id := 1 },
                      { id := 3, channel_id := 1 }]
    messages := [{ id := 1, conversation_id := 1, direction := Direction.incoming, timestamp := -10 },
                 { id := 2, conversation_id := 1, direction := Direction.outgoing, timestamp := 5 },
                 { id := 3, conversation_id := 2, direction := Direction.incoming, timestamp := 10 },
                 { id := 4, conversation_id := 3, direction := Direction.incoming, timestamp := 20 },
                 { id := 5, conversation_id := 3, direction := Direction.outgoing, timestamp := 200 }] }

/-- Two channels with resolvable conversations and three messages. -/
def dbTwoChannels : DB :=
  { channels := [{ id := 1, name := "whatsapp" }, { id := 2, name := "gmail" }]
    conversations := [{ id := 1, channel_id := 1 }, { id := 2, channel_id := 2 }]
    messages := [{ id := 1, conversation_id := 1, direction := Direction.incoming, timestamp := 5 },
                 { id := 2, conversation_id := 1, direction := Direction.outgoing, timestamp := 10 },
                 { id := 3, conversation_id := 2, direction := Direction.incoming, timestamp := 20 }] }

/-- A weekly snapshot whose SLA rate is 50 %. -/
def snapSla50 : WeeklySnapshot :=
  { frt_avg_min := none, pct_respondido_24h := some 50, conversations := 0,
    mensajes_totales_in := 0, mensajes_totales_out := 0 }

/-- A weekly snapshot whose SLA rate is 75 %. -/
def snapSla75 : WeeklySnapshot :=
  { frt_avg_min := none, pct_respondido_24h := some 75, conversations := 0,
    mensajes_totales_in := 0, mensajes_totales_out := 0 }

end Analytics

open Analytics

/-! ### Helper lemmas -/

theorem minTs_eq_none_iff (l : List Int) : minTs l = none ↔ l = [] := by
  cases l with
  | nil => simp [minTs]
  | cons t ts => cases h : minTs ts <;> simp [minTs, h]

theorem minTs_spec : ∀ (l : List Int) (t : Int), minTs l = some t →
    t ∈ l ∧ ∀ u ∈ l, t ≤ u := by
  intro l
  induction l with
  | nil => intro t h; simp [minTs] at h
  | cons a as ih =>
    intro t h
    cases hm : minTs as with
    | none =>
      have hnil : as = [] := (minTs_eq_none_iff as).1 hm
      subst hnil
      simp [minTs] at h
      subst h
      simp
    | some u =>
      simp [minTs, hm] at h
      subst h
      obtain ⟨hu1, hu2⟩ := ih u hm
      constructor
      · rcases le_total a u with hau | hua
        · simp [min_eq_left hau]
        · rw [min_eq_right hua]
          exact List.mem_cons_of_mem a hu1
      · intro v hv
        rcases List.mem_cons.1 hv with hva | hvas
        · rw [hva]; exact min_le_left a u
        · exact le_trans (min_le_right a u) (hu2 v hvas)

theorem firstIncomingTs_eq_none_iff (db : DB) (cid : Nat) :
    firstIncomingTs db cid = none ↔ msgsOf db cid Direction.incoming = [] := by
  rw [firstIncomingTs, minTs_eq_none_iff, List.map_eq_nil_iff]

theorem firstOutgoingTs_eq_none_iff (db : DB) (cid : Nat) :
    firstOutgoingTs db cid = none ↔ msgsOf db cid Direction.outgoing = [] := by
  rw [firstOutgoingTs, minTs_eq_none_iff, List.map_eq_nil_iff]

theorem frts_min_eq (db : DB) :
    frts_min db = db.conversations.filterMap (fun conv => frt db conv.id) := by
  rw [frts_min, frt_data_all, List.filterMap_map]
  rfl

theorem ok24_eq (db : DB) :
    ok24 db = db.conversations.countP (fun conv => slaOk db conv.id) := by
  rw [ok24, frts_min_eq]
  generalize db.conversations = l
  induction l with
  | nil => rfl
  | cons c cs ih =>
    rw [List.filterMap_cons]
    cases h : frt db c.id with
    | none => simp [List.countP_cons, slaOk, h, ih]
    | some v => simp [List.countP_cons, slaOk, h, ih]

/-- C7: for every reference date `today`, the computed week windows satisfy
`this_week_start = today - weekday today`, `this_week_end - this_week_start
= 6`, `last_week_start = this_week_start - 7`, `last_week_end =
this_week_start - 1`, and each window runs Monday (weekday 0) through Sunday
(weekday 6). -/
theorem C7_week_windows (today : Int) :
    this_week_start today = today - weekday today ∧
    this_week_end today - this_week_start today = 6 ∧
    last_week_start today = this_week_start today - 7 ∧
    last_week_end today = this_week_start today - 1 ∧
    weekday (this_week_start today) = 0 ∧
    weekday (this_week_end today) = 6 ∧
    weekday (last_week_start today) = 0 ∧
    weekday (last_week_end today) = 6 := by
  refine ⟨?_, ?_, ?_, ?_, ?_, ?_, ?_, ?_⟩ <;>
    simp only [this_week_end, last_week_start, last_week_end, this_week_start, weekday] <;>
    omega

/-- C8: the comparator returns `0` on `(0, 0)`, `none` on `(0, c ≠ 0)`,
`none` when either side is `none`, and `(current - previous) / previous * 100`
otherwise; in particular `(10, 15)` gives `50`. -/
theorem C8_comparator (p c : ℚ) :
    calcular_cambio_porcentual (some 0) (some 0) = some 0 ∧
    (c ≠ 0 → calcular_cambio_porcentual (some 0) (some c) = none) ∧
    calcular_cambio_porcentual none (some c) = none ∧
    calcular_cambio_porcentual (some p) none = none ∧
    calcular_cambio_porcentual none none = none ∧
    (p ≠ 0 → calcular_cambio_porcentual (some p) (some c) =
      some ((c - p) / p * 100)) ∧
    calcular_cambio_porcentual (some 10) (some 15) = some 50 := by
  refine ⟨rfl, fun hc => ?_, rfl, rfl, rfl, fun hp => ?_, by norm_num [calcular_cambio_porcentual]⟩
  · simp [calcular_cambio_porcentual, hc]
  · simp [calcular_cambio_porcentual, hp]

/-- Closed witness for `C8_comparator`: instantiates it at `p = 2`, `c = 5`
and discharges both nonzero hypotheses. -/
theorem C8_comparator_witness :
    calcular_cambio_porcentual (some 0) (some 5) = none ∧
    calcular_cambio_porcentual (some 2) (some 5) = some ((5 - 2) / 2 * 100) :=
  ⟨(C8_comparator 2 5).2.1 (by norm_num),
   ((C8_comparator 2 5).2.2.2.2.2.1 (by norm_num))⟩

/-- C4: per conversation, FRT is `none` iff there is no incoming message or
no outgoing message; when the first (minimum-timestamp) messages of both
directions exist, FRT is the floor of their timestamp difference in seconds
divided by 60; and `firstIncomingTs`/`firstOutgoingTs` are indeed the minima
of the direction-filtered timestamps. -/
theorem C4_frt_definition (db : DB) (cid : Nat) :
    (frt db cid = none ↔
       msgsOf db cid Direction.incoming = [] ∨ msgsOf db cid Direction.outgoing = []) ∧
    (∀ tin tout, firstIncomingTs db cid = some tin → firstOutgoingTs db cid = some tout →
       frt db cid = some (Int.fdiv (tout - tin) 60)) ∧
    (∀ t, firstIncomingTs db cid = some t →
       t ∈ (msgsOf db cid Direction.incoming).map Message.timestamp ∧
       ∀ u ∈ (msgsOf db cid Direction.incoming).map Message.timestamp, t ≤ u) ∧
    (∀ t, firstOutgoingTs db cid = some t →
       t ∈ (msgsOf db cid Direction.outgoing).map Message.timestamp ∧
       ∀ u ∈ (msgsOf db cid Direction.outgoing).map Message.timestamp, t ≤ u) := by
  refine ⟨?_, ?_, ?_, ?_⟩
  · rw [← firstIncomingTs_eq_none_iff, ← firstOutgoingTs_eq_none_iff, frt]
    cases h1 : firstIncomingTs db cid <;> cases h2 : firstOutgoingTs db cid <;> simp
  · intro tin tout h1 h2
    rw [frt, h1, h2]
  · intro t h1
    exact minTs_spec _ t h1
  · intro t h2
    exact minTs_spec _ t h2

/-- Closed witness for `C4_frt_definition`: instantiates it on
`dbOneAnswered` (reply arrives 3600 s after the inquiry, FRT = 60 min). -/
theorem C4_frt_definition_witness :
    frt dbOneAnswered 1 = some (Int.fdiv (3600 - 0) 60) :=
  (C4_frt_definition dbOneAnswered 1).2.1 0 3600 (by decide) (by decide)

/-- C3: the general SLA percentage is `none` exactly when there are no
conversations; otherwise it is 100 times the number of conversations whose
FRT exists and is at most 1440 minutes, divided by the total conversation
count (conversations with no FRT stay in the denominator); a conversation
answered at exactly 1440 minutes counts as met (yielding 100%), one at 1441
does not (yielding 0%). -/
theorem C3_general_sla (db : DB) :
    (pct24h db = none ↔ db.conversations.length = 0) ∧
    (db.conversations.length ≠ 0 →
       pct24h db =
         some (100 * (db.conversations.countP (fun conv => slaOk db conv.id) : ℚ) /
           (db.conversations.length : ℚ))) ∧
    pct24h dbExactly1440 = some 100 ∧
    pct24h dbExactly1441 = some 0 := by
  refine ⟨?_, ?_, ?_, ?_⟩
  · rw [pct24h]
    split <;> simp_all
  · intro h
    rw [pct24h, if_neg h, ok24_eq]
  · have h1 : ok24 dbExactly1440 = 1 := by decide
    have h2 : dbExactly1440.conversations.length = 1 := by decide
    rw [pct24h, h2, h1]
    norm_num
  · have h1 : ok24 dbExactly1441 = 0 := by decide
    have h2 : dbExactly1441.conversations.length = 1 := by decide
    rw [pct24h, h2, h1]
    norm_num

/-- Closed witness for `C3_general_sla`: instantiates it on `dbExactly1440`
(one conversation, answered, hence a nonzero denominator). -/
theorem C3_general_sla_witness :
    dbExactly1440.conversations.length ≠ 0 ∧
    pct24h dbExactly1440 =
      some (100 * (dbExactly1440.conversations.countP (fun conv => slaOk dbExactly1440 conv.id) : ℚ) /
        (dbExactly1440.conversations.length : ℚ)) :=
  ⟨by decide, (C3_general_sla dbExactly1440).2.1 (by decide)⟩

/-- C9: when a conversation's first outgoing message precedes its first
incoming message, its FRT is a negative number of minutes, it passes the SLA
test used by both the general and the weekly numerators (which only check
`FRT ≤ 1440`), and the negative value is a member of the list averaged into
the FRT mean. -/
theorem C9_negative_frt (db : DB) (cid : Nat) (tin tout : Int)
    (hin : firstIncomingTs db cid = some tin)
    (hout : firstOutgoingTs db cid = some tout)
    (hneg : tout < tin)
    (hconv : ∃ conv ∈ db.conversations, conv.id = cid) :
    ∃ v, frt db cid = some v ∧ v < 0 ∧ v ≤ 1440 ∧ slaOk db cid = true ∧
      v ∈ frts_min db := by
  have hfrt : frt db cid = some (Int.fdiv (tout - tin) 60) := by
    rw [frt, hin, hout]
  have hed : Int.fdiv (tout - tin) 60 = (tout - tin) / 60 :=
    Int.fdiv_eq_ediv _ (by norm_num)
  have hv : Int.fdiv (tout - tin) 60 < 0 := by rw [hed]; omega
  refine ⟨Int.fdiv (tout - tin) 60, hfrt, hv, by omega, ?_, ?_⟩
  · rw [slaOk, hfrt]
    simp
    omega
  · rw [frts_min_eq, List.mem_filterMap]
    obtain ⟨conv, hmem, hid⟩ := hconv
    exact ⟨conv, hmem, by rw [hid, hfrt]⟩

/-- Closed witness for `C9_negative_frt`: instantiates it on
`dbBackdatedOut` (outgoing at 0 s, incoming at 3600 s). -/
theorem C9_negative_frt_witness :
    ∃ v, frt dbBackdatedOut 1 = some v ∧ v < 0 ∧ v ≤ 1440 ∧
      slaOk dbBackdatedOut 1 = true ∧ v ∈ frts_min dbBackdatedOut :=
  C9_negative_frt dbBackdatedOut 1 3600 0 (by decide) (by decide) (by decide)
    ⟨{ id := 1, channel_id := 1 }, by decide, rfl⟩

theorem foldl_bumpDia : ∀ (ms : List Message) (days : List Int) (g : Int → Nat × Nat),
    ms.foldl bumpDia (days.map (fun d => (d, g d))) =
      days.map (fun d => (d, (g d).1 + cntDia ms d Direction.incoming,
                             (g d).2 + cntDia ms d Direction.outgoing)) := by
  intro ms
  induction ms with
  | nil =>
    intro days g
    simp [cntDia]
  | cons m ms ih =>
    intro days g
    rw [List.foldl_cons]
    have hb : bumpDia (days.map (fun d => (d, g d))) m =
        days.map (fun d => (d,
          if d == localDate m.timestamp then
            (match m.direction with
             | Direction.outgoing => ((g d).1, (g d).2 + 1)
             | Direction.incoming => ((g d).1 + 1, (g d).2))
          else g d)) := by
      rw [bumpDia, List.map_map]
      apply List.map_congr_left
      intro d _
      by_cases h : d = localDate m.timestamp
      · cases m.direction <;> simp [h]
      · simp [h]
    rw [hb, ih]
    apply List.map_congr_left
    intro d _
    by_cases h : d = localDate m.timestamp
    · cases hdir : m.direction <;>
        simp [cntDia, List.countP_cons, h, hdir] <;> omega
    · have h1 : (localDate m.timestamp == d) = false := by
        simp [beq_iff_eq]; exact fun he => h he.symm
      have h2 : (d == localDate m.timestamp) = false := by
        simp [beq_iff_eq]; exact h
      simp [cntDia, List.countP_cons, h1, h2]

theorem mensajes_por_dia_eq (db : DB) (ws we : Int) :
    mensajes_por_dia db ws we =
      (daysOf ws we).map (fun d =>
        (d, cntDia (msgs_in_week db (from_dt ws) (to_dt we)) d Direction.incoming,
            cntDia (msgs_in_week db (from_dt ws) (to_dt we)) d Direction.outgoing)) := by
  rw [mensajes_por_dia]
  have h := foldl_bumpDia (msgs_in_week db (from_dt ws) (to_dt we)) (daysOf ws we)
    (fun _ => (0, 0))
  simpa using h

theorem daysOf_week_length (ws : Int) : (daysOf ws (ws + 6)).length = 7 := by
  have h : ws + 6 + 1 - ws = 7 := by ring
  simp [daysOf, h]

/-- C6: for a weekly window the day-keyed breakdown has exactly 7 entries,
keyed Monday through Sunday in order and zero-filled by construction; every
message is bucketed by the local calendar date of its timestamp (naive
timestamps read as UTC, then shifted to UTC-3); a naive timestamp equal to
the instant of local midnight of day `d` is bucketed into day `d`, while a
timestamp one hour past UTC midnight of day `d` belongs to UTC day `d` but
is bucketed into local day `d - 1`. -/
theorem C6_day_buckets (db : DB) (ws : Int) :
    (mensajes_por_dia db ws (ws + 6)).length = 7 ∧
    (mensajes_por_dia db ws (ws + 6)).map Prod.fst = daysOf ws (ws + 6) ∧
    mensajes_por_dia db ws (ws + 6) =
      (daysOf ws (ws + 6)).map (fun d =>
        (d, cntDia (msgs_in_week db (from_dt ws) (to_dt (ws + 6))) d Direction.incoming,
            cntDia (msgs_in_week db (from_dt ws) (to_dt (ws + 6))) d Direction.outgoing)) ∧
    (∀ d : Int, localDate (localMidnightUtc d) = d) ∧
    (∀ d : Int, utcDate (d * 86400 + 3600) = d ∧ localDate (d * 86400 + 3600) = d - 1) := by
  refine ⟨?_, ?_, mensajes_por_dia_eq db ws (ws + 6), ?_, ?_⟩
  · rw [mensajes_por_dia_eq, List.length_map]
    exact daysOf_week_length ws
  · rw [mensajes_por_dia_eq, List.map_map]
    exact List.map_id (daysOf ws (ws + 6))
  · intro d
    rw [localDate, localMidnightUtc, zoneOffset, Int.fdiv_eq_ediv _ (by norm_num)]
    omega
  · intro d
    constructor
    · rw [utcDate, Int.fdiv_eq_ediv _ (by norm_num)]
      omega
    · rw [localDate, zoneOffset, Int.fdiv_eq_ediv _ (by norm_num)]
      omega

/-- C10: membership in the weekly `conversations` population is exactly
"has at least one message of either direction with timestamp in
`[from, to)`"; on `dbThreePopulations` with window `[0, 100)` this count
(3) differs from the weekly SLA denominator (first incoming in the window,
2) and from the weekly FRT set (1). -/
theorem C10_weekly_conversation_count (db : DB) (fromT toT : Int) :
    (∀ cid : Nat,
       cid ∈ ((msgs_in_week db fromT toT).map Message.conversation_id).dedup ↔
       ∃ m ∈ db.messages, m.conversation_id = cid ∧
         fromT ≤ m.timestamp ∧ m.timestamp < toT) ∧
    weeklyConversations dbThreePopulations 0 100 = 3 ∧
    (conv_in_week dbThreePopulations 0 100).length = 2 ∧
    (frt_weekly dbThreePopulations 0 100).length = 1 := by
  refine ⟨?_, by decide, by decide, by decide⟩
  intro cid
  simp only [List.mem_dedup, List.mem_map, msgs_in_week, List.mem_filter, inWindow,
    Bool.and_eq_true, decide_eq_true_eq]
  constructor
  · rintro ⟨m, ⟨hm, h1, h2⟩, hc⟩
    exact ⟨m, hm, hc, h1, h2⟩
  · rintro ⟨m, hm, hc, h1, h2⟩
    exact ⟨m, ⟨hm, h1, h2⟩, hc⟩

/-- C2 counterexample: with a previous-week SLA rate of 50 % and a
current-week rate of 75 %, the comparison's change value is 50 (percent
change), not the point difference 25 the claim asserts. -/
theorem C2_counterexample_sla_change :
    (build_weekly_comparison snapSla50 snapSla75).tasa_respuesta_24h.cambio_porcentual =
      some 50 ∧
    (75 : ℚ) - 50 = 25 ∧ (50 : ℚ) ≠ 25 := by
  refine ⟨?_, by norm_num, by norm_num⟩
  show calcular_cambio_porcentual (some 50) (some 75) = some 50
  rw [calcular_cambio_porcentual]
  norm_num

/-- C2 (amended): the change value for the SLA-rate metric is computed by
the same percent-change function as every other metric — yielding
`(current - previous) / previous * 100` when the previous rate is nonzero —
not by a point difference. -/
theorem C2_sla_rate_is_percent_change (anterior actual : WeeklySnapshot) (p c : ℚ)
    (hp : anterior.pct_respondido_24h = some p)
    (hc : actual.pct_respondido_24h = some c)
    (hpz : p ≠ 0) :
    (build_weekly_comparison anterior actual).tasa_respuesta_24h.cambio_porcentual =
      calcular_cambio_porcentual anterior.pct_respondido_24h actual.pct_respondido_24h ∧
    (build_weekly_comparison anterior actual).tasa_respuesta_24h.cambio_porcentual =
      some ((c - p) / p * 100) := by
  constructor
  · rfl
  · show calcular_cambio_porcentual anterior.pct_respondido_24h actual.pct_respondido_24h =
      some ((c - p) / p * 100)
    rw [hp, hc, calcular_cambio_porcentual]
    simp [hpz]

/-- Closed witness for `C2_sla_rate_is_percent_change`: instantiates it on
the 50 % / 75 % snapshots. -/
theorem C2_sla_rate_is_percent_change_witness :
    (build_weekly_comparison snapSla50 snapSla75).tasa_respuesta_24h.cambio_porcentual =
      calcular_cambio_porcentual snapSla50.pct_respondido_24h snapSla75.pct_respondido_24h ∧
    (build_weekly_comparison snapSla50 snapSla75).tasa_respuesta_24h.cambio_porcentual =
      some ((75 - 50) / 50 * 100) :=
  C2_sla_rate_is_percent_change snapSla50 snapSla75 50 75 rfl rfl (by norm_num)

/-- C1 (code evaluation at the failing input): on `dbLateOutgoing`, whose
only conversation has its first outgoing message at 3600 s (inside week 1),
the week-2 window `[604800, 1209600)` nevertheless receives the
conversation's FRT — because `_calculate_frt_weekly` selects conversations
with *any* outgoing message in the window, not those whose *first* outgoing
message lies in it — so the week-2 FRT set is `[60]` and its average 60,
although no first outgoing timestamp falls in week 2. -/
theorem C1_weekly_frt_attribution :
    frt_weekly dbLateOutgoing 604800 1209600 = [60] ∧
    firstOutgoingTs dbLateOutgoing 1 = some 3600 ∧
    ¬ ((604800 : Int) ≤ 3600 ∧ (3600 : Int) < 1209600) ∧
    frt_avg_weekly dbLateOutgoing 604800 1209600 = some 60 := by
  refine ⟨by decide, by decide, by decide, ?_⟩
  have h : frt_weekly dbLateOutgoing 604800 1209600 = [60] := by decide
  rw [frt_avg_weekly, h]
  norm_num

theorem countP_eq_zero_of_no_key {α : Type} (key : α → Nat) (pred : α → Bool)
    (l : List α) (k : Nat) (hnone : ∀ a ∈ l, key a ≠ k) :
    l.countP (fun x => key x == k && pred x) = 0 := by
  rw [List.countP_eq_zero]
  intro a ha h
  rw [Bool.and_eq_true, beq_iff_eq] at h
  exact hnone a ha h.1

theorem countP_unique_key {α : Type} (key : α → Nat) (pred : α → Bool) :
    ∀ (l : List α), (l.map key).Nodup → ∀ (k : Nat) (a : α), a ∈ l → key a = k →
      l.countP (fun x => key x == k && pred x) = if pred a then 1 else 0 := by
  intro l
  induction l with
  | nil => intro _ k a ha; simp at ha
  | cons x xs ih =>
    intro hnd k a ha hk
    rw [List.map_cons, List.nodup_cons] at hnd
    obtain ⟨hx, hxs⟩ := hnd
    rw [List.countP_cons]
    rcases List.mem_cons.1 ha with rfl | hmem
    · have hz : xs.countP (fun y => key y == k && pred y) = 0 := by
        apply countP_eq_zero_of_no_key
        intro b hb hbk
        exact hx (List.mem_map.2 ⟨b, hb, hbk.trans hk.symm⟩)
      rw [hz]
      simp [hk]
    · have hxk : key x ≠ k := by
        intro he
        exact hx (List.mem_map.2 ⟨a, hmem, hk.trans he.symm⟩)
      have hfalse : (key x == k && pred x) = false := by
        simp [hxk]
      rw [hfalse, ih hxs k a hmem hk]
      simp

theorem countP_key_mem {α : Type} (key : α → Nat) :
    ∀ (l : List α), (l.map key).Nodup → ∀ (k : Nat) (a : α), a ∈ l → key a = k →
      l.countP (fun x => k == key x) = 1 := by
  intro l
  induction l with
  | nil => intro _ k a ha; simp at ha
  | cons x xs ih =>
    intro hnd k a ha hk
    rw [List.map_cons, List.nodup_cons] at hnd
    obtain ⟨hx, hxs⟩ := hnd
    rw [List.countP_cons]
    rcases List.mem_cons.1 ha with rfl | hmem
    · have hz : xs.countP (fun y => k == key y) = 0 := by
        rw [List.countP_eq_zero]
        intro b hb h
        rw [beq_iff_eq] at h
        exact hx (List.mem_map.2 ⟨b, hb, h.symm.trans hk.symm⟩)
      rw [hz]
      simp [hk]
    · have hxk : key x ≠ k := by
        intro he
        exact hx (List.mem_map.2 ⟨a, hmem, hk.trans he.symm⟩)
      have hfalse : (k == key x) = false := by
        simp
        exact fun he => hxk he.symm
      rw [hfalse, ih hxs k a hmem hk]
      simp

theorem joinMult_eq (db : DB) (m : Message) (conv0 : Conversation)
    (hnd : (db.conversations.map Conversation.id).Nodup)
    (hc : conv0 ∈ db.conversations) (hid : conv0.id = m.conversation_id) (chid : Nat) :
    joinMult db chid m = if conv0.channel_id == chid then 1 else 0 := by
  rw [joinMult, ← List.countP_eq_length_filter]
  exact countP_unique_key Conversation.id (fun conv => conv.channel_id == chid)
    db.conversations hnd m.conversation_id conv0 hc hid

theorem sum_map_ite {α : Type} (p : α → Bool) :
    ∀ l : List α, (l.map (fun a => if p a then 1 else 0)).sum = l.countP p := by
  intro l
  induction l with
  | nil => rfl
  | cons a as ih =>
    rw [List.map_cons, List.sum_cons, List.countP_cons, ih]
    by_cases h : p a
    · simp [h, Nat.add_comm]
    · simp [h]

theorem channels_joinMult_sum (db : DB) (m : Message)
    (hconvN : (db.conversations.map Conversation.id).Nodup)
    (hchN : (db.channels.map Channel.id).Nodup)
    (hres : ∃ conv ∈ db.conversations, conv.id = m.conversation_id ∧
       ∃ ch ∈ db.channels, ch.id = conv.channel_id) :
    (db.channels.map (fun ch => joinMult db ch.id m)).sum = 1 := by
  obtain ⟨conv0, hc, hid, ch0, hch, hchid⟩ := hres
  have h1 : ∀ ch ∈ db.channels,
      joinMult db ch.id m = if conv0.channel_id == ch.id then 1 else 0 :=
    fun ch _ => joinMult_eq db m conv0 hconvN hc hid ch.id
  rw [List.map_congr_left h1]
  exact (sum_map_ite (fun ch : Channel => conv0.channel_id == ch.id) db.channels).trans
    (countP_key_mem Channel.id db.channels hchN conv0.channel_id ch0 hch hchid)

theorem sum_map_add {β : Type} (g h : β → Nat) :
    ∀ ys : List β, (ys.map (fun y => g y + h y)).sum = (ys.map g).sum + (ys.map h).sum := by
  intro ys
  induction ys with
  | nil => rfl
  | cons y ys ih =>
    simp only [List.map_cons, List.sum_cons, ih]
    omega

theorem sum_map_swap {α β : Type} (f : α → β → Nat) :
    ∀ (xs : List α) (ys : List β),
      (xs.map (fun x => (ys.map (f x)).sum)).sum =
      (ys.map (fun y => (xs.map (fun x => f x y)).sum)).sum := by
  intro xs
  induction xs with
  | nil =>
    intro ys
    simp
  | cons x xs ih =>
    intro ys
    simp only [List.map_cons, List.sum_cons]
    rw [ih, sum_map_add (fun y => f x y) (fun y => (xs.map (fun x => f x y)).sum)]

theorem sum_map_one {α : Type} : ∀ l : List α, (l.map (fun _ => 1)).sum = l.length := by
  intro l
  induction l with
  | nil => rfl
  | cons a as ih => simp only [List.map_cons, List.sum_cons, List.length_cons, ih]; omega

theorem por_canal_sum_dir (db : DB) (ms : List Message) (d : Direction)
    (hconvN : (db.conversations.map Conversation.id).Nodup)
    (hchN : (db.channels.map Channel.id).Nodup)
    (hres : ∀ m ∈ ms, ∃ conv ∈ db.conversations, conv.id = m.conversation_id ∧
       ∃ ch ∈ db.channels, ch.id = conv.channel_id) :
    (db.channels.map (fun ch => joinCount db ms ch.id d)).sum = totalDir ms d := by
  have hrw : (fun ch : Channel => joinCount db ms ch.id d) =
      (fun ch : Channel => ((ms.filter (fun m => m.direction == d)).map
        (fun m => joinMult db ch.id m)).sum) := rfl
  rw [hrw, sum_map_swap (fun ch m => joinMult db ch.id m) db.channels
    (ms.filter (fun m => m.direction == d))]
  have hone : ((ms.filter (fun m => m.direction == d)).map
      (fun m => (db.channels.map (fun ch => joinMult db ch.id m)).sum)) =
      ((ms.filter (fun m => m.direction == d)).map (fun _ => 1)) := by
    apply List.map_congr_left
    intro m hm
    exact channels_joinMult_sum db m hconvN hchN (hres m (List.mem_filter.1 hm).1)
  rw [hone, sum_map_one, ← List.countP_eq_length_filter]
  rfl

/-- C5: for both scopes (all-time, and any weekly window), the per-channel
breakdown has one entry per channel row (keyed by channel name, hence
`{in: 0, out: 0}` entries for channels with no traffic), and — whenever
every message's conversation resolves to a unique conversation row whose
channel is a unique channel row — the per-channel incoming and outgoing
counts sum to the scope's direction totals. -/
theorem C5_per_channel_breakdown (db : DB) (fromT toT : Int)
    (hconvN : (db.conversations.map Conversation.id).Nodup)
    (hchN : (db.channels.map Channel.id).Nodup)
    (hres : ∀ m ∈ db.messages, ∃ conv ∈ db.conversations, conv.id = m.conversation_id ∧
       ∃ ch ∈ db.channels, ch.id = conv.channel_id) :
    (por_canal_total db).map Prod.fst = db.channels.map Channel.name ∧
    ((por_canal_total db).map (fun e => e.2.1)).sum = totalDir db.messages Direction.incoming ∧
    ((por_canal_total db).map (fun e => e.2.2)).sum = totalDir db.messages Direction.outgoing ∧
    (por_canal_week db fromT toT).map Prod.fst = db.channels.map Channel.name ∧
    ((por_canal_week db fromT toT).map (fun e => e.2.1)).sum =
      totalDir (msgs_in_week db fromT toT) Direction.incoming ∧
    ((por_canal_week db fromT toT).map (fun e => e.2.2)).sum =
      totalDir (msgs_in_week db fromT toT) Direction.outgoing := by
  have hresW : ∀ m ∈ msgs_in_week db fromT toT,
      ∃ conv ∈ db.conversations, conv.id = m.conversation_id ∧
        ∃ ch ∈ db.channels, ch.id = conv.channel_id :=
    fun m hm => hres m (List.mem_filter.1 hm).1
  refine ⟨?_, ?_, ?_, ?_, ?_, ?_⟩
  · rw [por_canal_total, por_canal, List.map_map]
    rfl
  · rw [por_canal_total, por_canal, List.map_map]
    exact por_canal_sum_dir db db.messages Direction.incoming hconvN hchN hres
  · rw [por_canal_total, por_canal, List.map_map]
    exact por_canal_sum_dir db db.messages Direction.outgoing hconvN hchN hres
  · rw [por_canal_week, por_canal, List.map_map]
    rfl
  · rw [por_canal_week, por_canal, List.map_map]
    exact por_canal_sum_dir db (msgs_in_week db fromT toT) Direction.incoming hconvN hchN hresW
  · rw [por_canal_week, por_canal, List.map_map]
    exact por_canal_sum_dir db (msgs_in_week db fromT toT) Direction.outgoing hconvN hchN hresW

/-- Closed witness for `C5_per_channel_breakdown`: instantiates it on
`dbTwoChannels` with window `[0, 100)`, discharging the primary-key and
resolvability hypotheses by computation. -/
theorem C5_per_channel_breakdown_witness :
    (por_canal_total dbTwoChannels).map Prod.fst = dbTwoChannels.channels.map Channel.name ∧
    ((por_canal_total dbTwoChannels).map (fun e => e.2.1)).sum =
      totalDir dbTwoChannels.messages Direction.incoming ∧
    ((por_canal_total dbTwoChannels).map (fun e => e.2.2)).sum =
      totalDir dbTwoChannels.messages Direction.outgoing ∧
    (por_canal_week dbTwoChannels 0 100).map Prod.fst = dbTwoChannels.channels.map Channel.name ∧
    ((por_canal_week dbTwoChannels 0 100).map (fun e => e.2.1)).sum =
      totalDir (msgs_in_week dbTwoChannels 0 100) Direction.incoming ∧
    ((por_canal_week dbTwoChannels 0 100).map (fun e => e.2.2)).sum =
      totalDir (msgs_in_week dbTwoChannels 0 100) Direction.outgoing :=
  C5_per_channel_breakdown dbTwoChannels 0 100 (by decide) (by decide) (by decide)
